import Mathlib

/-!
Verification of the water/steam property core (IAPWS-IF97 style) of this
repository against its specification.

Shallow embedding conventions:
* Python floats are modelled as real numbers; `x ** 0.5` is modelled by
  `Real.sqrt` (for every real `x`, `Real.sqrt x = x ^ (1/2 : ℝ)`, see
  `Real.sqrt_eq_rpow`, so this is the same function as the rpow form), and
  fractional powers by `Real.rpow`.
* A method that can raise is embedded with result type `Except WsError _`;
  the guard mirrors the source's range check.  Methods whose bodies contain
  no raise are total functions.
* The mutable dictionary `self.props` of `region.py` is a record of
  optional fields threaded explicitly through the methods; python's
  `dict.copy()` is modelled in a small store (`ObjState`) where every
  returned record occupies a fresh slot, distinct from the instance's own
  dictionary.
-/

noncomputable section
open Classical

/-- Error raised by the saturation-curve range guards (`raise ValueError` in
`saturationcurve.py`; the spec calls it `InputRangeError`). -/
inductive WsError
  | inputRange
deriving DecidableEq

namespace SaturationCurve

/-- Coefficient `n[0]` of the region-4 correlation in `saturationcurve.py`. -/
def n0 : ℝ := 0.11670521452767e4
/-- Coefficient `n[1]`. -/
def n1 : ℝ := -0.72421316703206e6
/-- Coefficient `n[2]`. -/
def n2 : ℝ := -0.17073846940092e2
/-- Coefficient `n[3]`. -/
def n3 : ℝ := 0.12020824702470e5
/-- Coefficient `n[4]`. -/
def n4 : ℝ := -0.32325550322333e7
/-- Coefficient `n[5]`. -/
def n5 : ℝ := 0.14915108613530e2
/-- Coefficient `n[6]`. -/
def n6 : ℝ := -0.48232657361591e4
/-- Coefficient `n[7]`. -/
def n7 : ℝ := 0.40511340542057e6
/-- Coefficient `n[8]`. -/
def n8 : ℝ := -0.23855557567849
/-- Coefficient `n[9]`. -/
def n9 : ℝ := 0.65017534844798e3

/-- Body of `SaturationCurve.p_T` after the range guard: saturation pressure
(Pa) from temperature (K). -/
def p_T_raw (T : ℝ) : ℝ :=
  let T1 := T + n8 / (T - n9)
  let A := T1 * T1 + n0 * T1 + n1
  let B := n2 * T1 * T1 + n3 * T1 + n4
  let C := n5 * T1 * T1 + n6 * T1 + n7
  (2 * C / (-B + Real.sqrt (B * B - 4 * A * C))) ^ 4 * 1e6

/-- `SaturationCurve.p_T` with its range guard
`273.15 <= T <= 647.096` (raises otherwise). -/
def p_T (T : ℝ) : Except WsError ℝ :=
  if 273.15 ≤ T ∧ T ≤ 647.096 then .ok (p_T_raw T) else .error .inputRange

/-- Body of `SaturationCurve.T_p` after the range guard: saturation
temperature (K) from pressure (Pa). -/
def T_p_raw (p : ℝ) : ℝ :=
  let betta := (p / 1e6) ^ (0.25 : ℝ)
  let E := betta * betta + n2 * betta + n5
  let F := n0 * betta * betta + n3 * betta + n6
  let G := n1 * betta * betta + n4 * betta + n7
  let D := 2 * G / (-F - Real.sqrt (F * F - 4 * E * G))
  (n9 + D - Real.sqrt ((n9 + D) ^ 2 - 4 * (n8 + n9 * D))) / 2

/-- `SaturationCurve.T_p` with its range guard
`611.212677 <= p <= 22.064e6` (raises otherwise). -/
def T_p (p : ℝ) : Except WsError ℝ :=
  if 611.212677 ≤ p ∧ p ≤ 22.064e6 then .ok (T_p_raw p) else .error .inputRange

end SaturationCurve

namespace Boundary23

/-- Modelled from the spec: `boundary23.py` (class `Boundary23`, imported by
`region2.py`) is not among the given sources.  The spec describes its
`temperature_at_pressure(p)` as the closed-form IF97-style locus separating
the liquid region from the vapor region at pressures above the saturation
pressure at 623.15 K, with no input-range guard of its own; this is the
IF97 boundary-23 equation `T = n4 + sqrt((pi - n5) / n3)` with
`pi = p / 1 MPa`. -/
def T_p (p : ℝ) : ℝ :=
  let pi := p / 1e6
  0.57254459862746e3 + Real.sqrt ((pi - 0.13918839778870e2) / 0.10192970039326e-2)

end Boundary23

namespace Region

/-- The eight properties computed by one forward `_props_Tp` evaluation
(region 1: `region1.py` lines 63-78; the phase tag `x` is a number in the
source dictionary). -/
structure PropsCore where
  x : ℝ
  v : ℝ
  u : ℝ
  s : ℝ
  h : ℝ
  cv : ℝ
  cp : ℝ
  w : ℝ

/-- The mutable dictionary `self.props` of a region instance: each key is
either absent (`none`) or holds a float.  Keys are exactly the ones written
by `region.py` / `region1.py` / `region2.py`. -/
structure PropsDict where
  x : Option ℝ := none
  v : Option ℝ := none
  u : Option ℝ := none
  s : Option ℝ := none
  h : Option ℝ := none
  cv : Option ℝ := none
  cp : Option ℝ := none
  w : Option ℝ := none
  T : Option ℝ := none
  p : Option ℝ := none

instance : Inhabited PropsDict := ⟨{}⟩

/-- Modelled from the spec: `paramsin.py` (class `ParamsIn`, the base class
of `Region`) is not among the given sources; the props dictionary of a
fresh region instance holds no computed fields. -/
def emptyProps : PropsDict := {}

/-- The second parameter of `Region._pX_in`: the string `X` is `'h'` or
`'s'`. -/
inductive HS
  | h
  | s

/-- Selector corresponding to the dictionary lookup `[X]` on a returned
property record.  The lookup cannot fail where the source performs it
(`_pX_in` reads it from a record just produced by `props_Tp`, which always
sets both keys), so the `none` default is dead code. -/
def selGet (d : PropsDict) (X : HS) : ℝ :=
  match X with
  | .h => d.h.getD 0
  | .s => d.s.getD 0

/-- Selector on a `PropsCore` record for the same two keys. -/
def PropsCore.sel (c : PropsCore) (X : HS) : ℝ :=
  match X with
  | .h => c.h
  | .s => c.s

/-- A single-phase region as `region.py` sees it: the abstract methods
`_props_Tp`, `T_ph`, `T_ps`, `_get_T_edges` overridden by the concrete
regions, and `p_in` inherited from `ParamsIn`.

`p_in` is modelled from the spec (its body lives in the missing
`paramsin.py`): it decides whether `p` lies in the region's pressure
range. -/
structure RegionImpl where
  propsTpCore : ℝ → ℝ → PropsCore
  T_ph : ℝ → ℝ → ℝ
  T_ps : ℝ → ℝ → ℝ
  p_in : ℝ → Prop
  T_edges : ℝ → ℝ × ℝ

/-- Effect of `self._props_Tp(T, p)` on the dictionary: the eight computed
keys are overwritten, `T` and `p` are untouched. -/
def setCore (d : PropsDict) (c : PropsCore) : PropsDict :=
  { d with x := some c.x, v := some c.v, u := some c.u, s := some c.s,
           h := some c.h, cv := some c.cv, cp := some c.cp, w := some c.w }

/-- `Region.props_Tp(T, p)`: runs `_props_Tp`, then sets `props['T'] = T`
and `props['p'] = p`, and returns `self.props.copy()`.  Result: the new
dictionary state and the returned copy. -/
def props_Tp (r : RegionImpl) (d : PropsDict) (T p : ℝ) : PropsDict × PropsDict :=
  let d1 := setCore d (r.propsTpCore T p)
  let d2 := { d1 with T := some T, p := some p }
  (d2, d2)

/-- `Region.props_tp(t, p)`: Celsius convenience wrapper. -/
def props_tp (r : RegionImpl) (d : PropsDict) (t p : ℝ) : PropsDict × PropsDict :=
  props_Tp r d (t + 273.15) p

/-- `Region.props_ph(p, h)`: computes `T = self.T_ph(p, h)`, runs
`_props_Tp(T, p)`, then sets `props['T'] = T` and `props['h'] = h` — and,
unlike `props_Tp`, never writes `props['p']`. -/
def props_ph (r : RegionImpl) (d : PropsDict) (p h : ℝ) : PropsDict × PropsDict :=
  let T := r.T_ph p h
  let d1 := setCore d (r.propsTpCore T p)
  let d2 := { d1 with T := some T, h := some h }
  (d2, d2)

/-- `Region.props_ps(p, s)`: computes `T = self.T_ps(p, s)`, runs
`_props_Tp(T, p)`, then sets `props['T'] = T` and `props['s'] = s` — and,
like `props_ph`, never writes `props['p']`. -/
def props_ps (r : RegionImpl) (d : PropsDict) (p s : ℝ) : PropsDict × PropsDict :=
  let T := r.T_ps p s
  let d1 := setCore d (r.propsTpCore T p)
  let d2 := { d1 with T := some T, s := some s }
  (d2, d2)

/-- `Region._pX_in(p, value, X)`: returns `False` when `p` is outside the
region's pressure range, otherwise evaluates the chosen property at the
region's temperature edges for this pressure (each evaluation mutating the
dictionary) and performs the ordered range check
`value_lower <= value <= value_upper`. -/
def pX_in (r : RegionImpl) (d : PropsDict) (p value : ℝ) (X : HS) : PropsDict × Prop :=
  if ¬ r.p_in p then (d, False)
  else
    let edges := r.T_edges p
    let c1 := props_Tp r d edges.1 p
    let c2 := props_Tp r c1.1 edges.2 p
    (c2.1, selGet c1.2 X ≤ value ∧ value ≤ selGet c2.2 X)

/-- Object store modelling python dictionary identity for one region
instance: `props` is the instance's own dictionary (`self.props`), and
`ret` holds, in allocation order, the fresh dictionaries handed out by
`self.props.copy()` — one new slot per property-returning call, so a
returned record never aliases `self.props`. -/
structure ObjState where
  props : PropsDict
  ret : List PropsDict

/-- One property-returning call of the public interface. -/
inductive RCall
  | tp (T p : ℝ)
  | ph (p h : ℝ)
  | ps (p s : ℝ)

/-- The (new dictionary state, returned copy) pair of one call. -/
def retOf (r : RegionImpl) (d : PropsDict) : RCall → PropsDict × PropsDict
  | .tp T p => props_Tp r d T p
  | .ph p h => props_ph r d p h
  | .ps p s => props_ps r d p s

/-- Runs one property-returning call on the store: the instance dictionary
is updated and the returned copy is placed in a fresh slot, whose address
is handed back to the caller. -/
def runCall (r : RegionImpl) (st : ObjState) (c : RCall) : ObjState × ℕ :=
  let dp := retOf r st.props c
  ({ props := dp.1, ret := st.ret ++ [dp.2] }, st.ret.length)

/-- A caller mutating, in place, the record it received at address `a`. -/
def mutateRet (st : ObjState) (a : ℕ) (g : PropsDict → PropsDict) : ObjState :=
  { st with ret := st.ret.set a (g (st.ret.getD a emptyProps)) }

/-- Reading the record at address `a`. -/
def readRet (st : ObjState) (a : ℕ) : PropsDict :=
  st.ret.getD a emptyProps

end Region

namespace Region

/-- Gas constant of water vapor, J/kg/K (`Region.R`). -/
def R : ℝ := 461.526
/-- Critical-point temperature, K (`Region.Tc`). -/
def Tc : ℝ := 647.096
/-- Critical-point pressure, Pa (`Region.pc`). -/
def pc : ℝ := 22.064e6
/-- Critical-point density, kg/m3 (`Region.rc`). -/
def rc : ℝ := 322

end Region

namespace Region1

/-- Exponent pairs and coefficients of the region-1 dimensionless Gibbs surface, from `Region1._props_Tp` (arrays `I`, `J`, `n`). -/
def gIJn : List (ℤ × ℤ × ℝ) :=
  [
    (0, -2, 0.14632971213167),
    (0, -1, -0.84548187169114),
    (0, 0, -3.756360367204),
    (0, 1, 3.3855169168385),
    (0, 2, -0.95791963387872),
    (0, 3, 0.15772038513228),
    (0, 4, -0.016616417199501),
    (0, 5, 0.00081214629983568),
    (1, -9, 0.00028319080123804),
    (1, -7, -0.00060706301565874),
    (1, -1, -0.018990068218419),
    (1, 0, -0.032529748770505),
    (1, 1, -0.021841717175414),
    (1, 3, -5.283835796993e-05),
    (2, -3, -0.00047184321073267),
    (2, 0, -0.00030001780793026),
    (2, 1, 4.7661393906987e-05),
    (2, 3, -4.4141845330846e-06),
    (2, 17, -7.2694996297594e-16),
    (3, -4, -3.1679644845054e-05),
    (3, 0, -2.8270797985312e-06),
    (3, 6, -8.5205128120103e-10),
    (4, -5, -2.2425281908e-06),
    (4, -2, -6.5171222895601e-07),
    (4, 10, -1.4341729937924e-13),
    (5, -8, -4.0516996860117e-07),
    (8, -11, -1.2734301741641e-09),
    (8, -6, -1.7424871230634e-10),
    (21, -29, -6.8762131295531e-19),
    (23, -31, 1.4478307828521e-20),
    (29, -38, 2.6335781662795e-23),
    (30, -39, -1.1947622640071e-23),
    (31, -40, 1.8228094581404e-24),
    (32, -41, -9.3537087292458e-26)]

/-- Exponent pairs and coefficients of the region-1 backward correlation `T(p,h)`, from `Region1.T_ph`. -/
def phIJn : List (ℤ × ℤ × ℝ) :=
  [
    (0, 0, -238.72489924521),
    (0, 1, 404.21188637945),
    (0, 2, 113.49746881718),
    (0, 6, -5.8457616048039),
    (0, 22, -0.0001528548241314),
    (0, 32, -1.0866707695377e-06),
    (1, 0, -13.391744872602),
    (1, 1, 43.211039183559),
    (1, 2, -54.010067170506),
    (1, 3, 30.535892203916),
    (1, 4, -6.5964749423638),
    (1, 10, 0.0093965400878363),
    (1, 32, 1.157364750534e-07),
    (2, 10, -2.5858641282073e-05),
    (2, 32, -4.0644363084799e-09),
    (3, 10, 6.6456186191635e-08),
    (3, 32, 8.0670734103027e-11),
    (4, 32, -9.3477771213947e-13),
    (5, 32, 5.8265442020601e-15),
    (6, 32, -1.5020185953503e-17)]

/-- Exponent pairs and coefficients of the region-1 backward correlation `T(p,s)`, from `Region1.T_ps`. -/
def psIJn : List (ℤ × ℤ × ℝ) :=
  [
    (0, 0, 174.78268058307),
    (0, 1, 34.806930892873),
    (0, 2, 6.5292584978455),
    (0, 3, 0.33039981775489),
    (0, 11, -1.9281382923196e-07),
    (0, 31, -2.4909197244573e-23),
    (1, 0, -0.26107636489332),
    (1, 1, 0.22592965981586),
    (1, 2, -0.064256463395226),
    (1, 3, 0.0078876289270526),
    (1, 12, 3.5672110607366e-10),
    (1, 31, 1.7332496994895e-24),
    (2, 0, 0.00056608900654837),
    (2, 1, -0.00032635483139717),
    (2, 2, 4.4778286690632e-05),
    (2, 9, -5.1322156908507e-10),
    (2, 31, -4.2522657042207e-26),
    (3, 10, 2.6400441360689e-13),
    (3, 32, 7.8124600459723e-29),
    (4, 32, -3.0732199903668e-31)]
open Region in
/-- Gamma sum `l` of `Region1._props_Tp`. -/
def l (pi tau : ℝ) : ℝ :=
  (gIJn.map (fun e => e.2.2 * (7.1 - pi) ^ e.1 * (tau - 1.222) ^ e.2.1)).sum

/-- Gamma sum `lp` of `Region1._props_Tp`. -/
def lp (pi tau : ℝ) : ℝ :=
  (gIJn.map (fun e => -e.2.2 * (e.1 : ℝ) * (7.1 - pi) ^ (e.1 - 1) * (tau - 1.222) ^ e.2.1)).sum

/-- Gamma sum `lpp` of `Region1._props_Tp`. -/
def lpp (pi tau : ℝ) : ℝ :=
  (gIJn.map (fun e => e.2.2 * (e.1 : ℝ) * ((e.1 : ℝ) - 1) * (7.1 - pi) ^ (e.1 - 2) * (tau - 1.222) ^ e.2.1)).sum

/-- Gamma sum `lt` of `Region1._props_Tp`. -/
def lt (pi tau : ℝ) : ℝ :=
  (gIJn.map (fun e => e.2.2 * (7.1 - pi) ^ e.1 * (e.2.1 : ℝ) * (tau - 1.222) ^ (e.2.1 - 1))).sum

/-- Gamma sum `ltt` of `Region1._props_Tp`. -/
def ltt (pi tau : ℝ) : ℝ :=
  (gIJn.map (fun e => e.2.2 * (7.1 - pi) ^ e.1 * (e.2.1 : ℝ) * ((e.2.1 : ℝ) - 1) * (tau - 1.222) ^ (e.2.1 - 2))).sum

/-- Gamma sum `lpt` of `Region1._props_Tp`. -/
def lpt (pi tau : ℝ) : ℝ :=
  (gIJn.map (fun e => -e.2.2 * (7.1 - pi) ^ (e.1 - 1) * (e.2.1 : ℝ) * (e.1 : ℝ) * (tau - 1.222) ^ (e.2.1 - 1))).sum

/-- `Region1._props_Tp(T, p)`: the eight properties written into the
dictionary, translated line by line from `region1.py` (lines 61-78);
`x = -1` is the liquid phase tag and `** 0.5` in `w` is `Real.sqrt`. -/
noncomputable def propsCore (T p : ℝ) : Region.PropsCore :=
  let pi := p / 16.53e6
  let tau := 1386 / T
  { x := -1,
    v := pi * lp pi tau * Region.R * T / p,
    u := Region.R * T * (tau * lt pi tau - pi * lp pi tau),
    s := Region.R * (tau * lt pi tau - l pi tau),
    h := Region.R * T * tau * lt pi tau,
    cv := Region.R * (-(tau * tau * ltt pi tau) +
      (lp pi tau - tau * lpt pi tau) ^ 2 / lpp pi tau),
    cp := -(Region.R * tau * tau * ltt pi tau),
    w := Real.sqrt (Region.R * T * lp pi tau * lp pi tau /
      ((lp pi tau - tau * lpt pi tau) ^ 2 / tau / tau / ltt pi tau - lpp pi tau)) }

/-- `Region1.T_ph(p, h)`: backward temperature from pressure and
enthalpy, a single closed-form polynomial sum. -/
def T_ph (p h : ℝ) : ℝ :=
  let teta := h / 2500e3
  let pi := p / 1e6
  (phIJn.map (fun e => e.2.2 * pi ^ e.1 * (teta + 1) ^ e.2.1)).sum

/-- `Region1.T_ps(p, s)`: backward temperature from pressure and
entropy, a single closed-form polynomial sum. -/
def T_ps (p s : ℝ) : ℝ :=
  let sigma := s / 1000
  let pi := p / 1e6
  (psIJn.map (fun e => e.2.2 * pi ^ e.1 * (sigma + 2) ^ e.2.1)).sum

/-- `Region1.T_max = 623.15` K (`region1.py` line 22). -/
def T_max : ℝ := 623.15

/-- Modelled from the spec: `self.T_min` comes from the missing
`paramsin.py`; the spec's global minimum temperature is 273.15 K. -/
def T_min : ℝ := 273.15

/-- `Region1.p_right_lower = self.sc.p_T(self.T_max)`: saturation pressure
at 623.15 K.  The call cannot raise (623.15 K is inside the saturation
curve's domain), so the unguarded body is used. -/
def p_right_lower : ℝ := SaturationCurve.p_T_raw T_max

/-- `Region1._get_T_edges(p)`: the lower edge is `T_min`; the upper edge is
`T_max` for `p > p_right_lower` and the saturation temperature otherwise
(`sc.T_p(p)`, embedded by its unguarded body — `_pX_in` only calls this
after the pressure-range check). -/
def get_T_edges (p : ℝ) : ℝ × ℝ :=
  (T_min, if p_right_lower < p then T_max else SaturationCurve.T_p_raw p)

/-- Modelled from the spec: `p_in` of the missing `paramsin.py`; the spec
bounds a region's pressure by the fixed constants 611.212677 Pa and the
critical pressure. -/
def p_in (p : ℝ) : Prop := 611.212677 ≤ p ∧ p ≤ 22.064e6

/-- The liquid region bundled as a `Region.RegionImpl`. -/
noncomputable def impl : Region.RegionImpl :=
  { propsTpCore := propsCore, T_ph := T_ph, T_ps := T_ps,
    p_in := p_in, T_edges := get_T_edges }

/-- `Region1.T_ph` in the error monad: the method body performs no input
validation and contains no raise, so no error path exists. -/
def T_phE (p h : ℝ) : Except WsError ℝ := do
  return T_ph p h

/-- `Region1.T_ps` in the error monad: no validation, no raise. -/
def T_psE (p s : ℝ) : Except WsError ℝ := do
  return T_ps p s

end Region1

namespace Region2

/-- Exponent pairs and coefficients of the region-2 subregion-a backward correlation `T(p,h)`, from `Region2.__T_ph2a`. -/
def ph2aIJn : List (ℤ × ℤ × ℝ) :=
  [
    (0, 0, 1089.8952318288),
    (0, 1, 849.51654495535),
    (0, 2, -107.81748091826),
    (0, 3, 33.153654801263),
    (0, 7, -7.4232016790248),
    (0, 20, 11.765048724356),
    (1, 0, 1.844574935579),
    (1, 1, -4.1792700549624),
    (1, 2, 6.2478196935812),
    (1, 3, -17.344563108114),
    (1, 7, -200.58176862096),
    (1, 9, 271.96065473796),
    (1, 11, -455.11318285818),
    (1, 18, 3091.9688604755),
    (1, 44, 252266.40357872),
    (2, 0, -0.0061707422868339),
    (2, 2, -0.31078046629583),
    (2, 7, 11.670873077107),
    (2, 36, 128127984.04046),
    (2, 38, -985549096.23276),
    (2, 40, 2822454697.3002),
    (2, 42, -3594897141.0703),
    (2, 44, 1722734991.3197),
    (3, 24, -13551.334240775),
    (3, 44, 12848734.66465),
    (4, 12, 1.3865724283226),
    (4, 32, 235988.32556514),
    (4, 44, -13105236.545054),
    (5, 32, 7399.9835474766),
    (5, 36, -551966.9703006),
    (5, 42, 3715408.5996233),
    (6, 34, 19127.72923966),
    (6, 44, -415351.64835634),
    (7, 28, -62.459855192507)]

/-- Exponent pairs and coefficients of the region-2 subregion-b backward correlation `T(p,h)`, from `Region2.__T_ph2b`. -/
def ph2bIJn : List (ℤ × ℤ × ℝ) :=
  [
    (0, 0, 1489.5041079516),
    (0, 1, 743.07798314034),
    (0, 2, -97.708318797837),
    (0, 12, 2.4742464705674),
    (0, 18, -0.63281320016026),
    (0, 24, 1.1385952129658),
    (0, 28, -0.47811863648625),
    (0, 40, 0.0085208123431544),
    (1, 0, 0.93747147377932),
    (1, 2, 3.3593118604916),
    (1, 6, 3.3809355601454),
    (1, 12, 0.16844539671904),
    (1, 18, 0.73875745236695),
    (1, 24, -0.47128737436186),
    (1, 28, 0.15020273139707),
    (1, 40, -0.002176411421975),
    (2, 2, -0.021810755324761),
    (2, 8, -0.10829784403677),
    (2, 18, -0.046333324635812),
    (2, 40, 7.1280351959551e-05),
    (3, 1, 0.00011032831789999),
    (3, 2, 0.00018955248387902),
    (3, 12, 0.0030891541160537),
    (3, 24, 0.0013555504554949),
    (4, 2, 2.8640237477456e-07),
    (4, 12, -1.0779857357512e-05),
    (4, 18, -7.6462712454814e-05),
    (4, 24, 1.4052392818316e-05),
    (4, 28, -3.1083814331434e-05),
    (4, 40, -1.0302738212103e-06),
    (5, 18, 2.821728163504e-07),
    (5, 24, 1.2704902271945e-06),
    (5, 40, 7.3803353468292e-08),
    (6, 28, -1.1030139238909e-08),
    (7, 2, -8.1456365207833e-14),
    (7, 28, -2.5180545682962e-11),
    (9, 1, -1.7565233969407e-18),
    (9, 40, 8.6934156344163e-15)]

/-- Exponent pairs and coefficients of the region-2 subregion-c backward correlation `T(p,h)`, from `Region2.__T_ph2c`. -/
def ph2cIJn : List (ℤ × ℤ × ℝ) :=
  [
    (-7, 0, -3236839855524.2),
    (-7, 4, 7326335090218.1),
    (-6, 0, 358250899454.47),
    (-6, 2, -583401318515.9),
    (-5, 0, -10783068217.47),
    (-5, 2, 20825544563.171),
    (-2, 0, 610747.83564516),
    (-2, 1, 859777.2253558),
    (-1, 0, -25745.72360417),
    (-1, 2, 31081.088422714),
    (0, 0, 1208.2315865936),
    (0, 1, 482.19755109255),
    (1, 4, 3.7966001272486),
    (1, 8, -10.842984880077),
    (2, 4, -0.04536417267666),
    (6, 0, 1.4559115658698e-13),
    (6, 1, 1.126159740723e-12),
    (6, 4, -1.7804982240686e-11),
    (6, 10, 1.2324579690832e-07),
    (6, 12, -1.1606921130984e-06),
    (6, 16, 2.7846367088554e-05),
    (6, 20, -0.00059270038474176),
    (6, 22, 0.0012918582991878)]

/-- Exponent pairs (the `I` exponents are fractional) and coefficients of the region-2 subregion-a backward correlation `T(p,s)`, from `Region2.__T_ps2a`. -/
def ps2aIJn : List (ℝ × ℤ × ℝ) :=
  [
    (-1.5, -24, -392359.83861984),
    (-1.5, -23, 515265.7382727),
    (-1.5, -19, 40482.443161048),
    (-1.5, -13, -321.93790923902),
    (-1.5, -11, 96.961424218694),
    (-1.5, -10, -22.867846371773),
    (-1.25, -19, -449429.14124357),
    (-1.25, -15, -5011.8336020166),
    (-1.25, -6, 0.35684463560015),
    (-1.0, -26, 44235.33584819),
    (-1.0, -21, -13673.388811708),
    (-1.0, -17, 421632.60207864),
    (-1.0, -16, 22516.925837475),
    (-1.0, -9, 474.42144865646),
    (-1.0, -8, -149.31130797647),
    (-0.75, -15, -197811.26320452),
    (-0.75, -14, -23554.39947076),
    (-0.5, -26, -19070.616302076),
    (-0.5, -13, 55375.669883164),
    (-0.5, -9, 3829.3691437363),
    (-0.5, -7, -603.91860580567),
    (-0.25, -27, 1936.3102620331),
    (-0.25, -25, 4266.064369861),
    (-0.25, -11, -5978.0638872718),
    (-0.25, -6, -704.01463926862),
    (0.25, 1, 338.36784107553),
    (0.25, 4, 20.862786635187),
    (0.25, 8, 0.033834172656196),
    (0.25, 11, -4.3124428414893e-05),
    (0.5, 0, 166.53791356412),
    (0.5, 1, -139.86292055898),
    (0.5, 5, -0.78849547999872),
    (0.5, 6, 0.072132411753872),
    (0.5, 10, -0.0059754839398283),
    (0.5, 14, -1.2141358953904e-05),
    (0.5, 16, 2.3227096733871e-07),
    (0.75, 0, -10.538463566194),
    (0.75, 4, 2.0718925496502),
    (0.75, 9, -0.072193155260427),
    (0.75, 17, 2.074988708112e-07),
    (1.0, 7, -0.018340657911379),
    (1.0, 18, 2.9036272348696e-07),
    (1.25, 3, 0.21037527893619),
    (1.25, 15, 0.00025681239729999),
    (1.5, 5, -0.012799002933781),
    (1.5, 18, -8.2198102652018e-06)]

/-- Exponent pairs and coefficients of the region-2 subregion-b backward correlation `T(p,s)`, from `Region2.__T_ps2b`. -/
def ps2bIJn : List (ℤ × ℤ × ℝ) :=
  [
    (-6, 0, 316876.65083497),
    (-6, 11, 20.864175881858),
    (-5, 0, -398593.99803599),
    (-5, 11, -21.816058518877),
    (-4, 0, 223697.85194242),
    (-4, 1, -2784.1703445817),
    (-4, 11, 9.920743607148),
    (-3, 0, -75197.512299157),
    (-3, 1, 2970.8605951158),
    (-3, 11, -3.4406878548526),
    (-3, 12, 0.38815564249115),
    (-2, 0, 17511.29508575),
    (-2, 1, -1423.7112854449),
    (-2, 6, 1.0943803364167),
    (-2, 10, 0.89971619308495),
    (-1, 0, -3375.9740098958),
    (-1, 1, 471.62885818355),
    (-1, 5, -1.9188241993679),
    (-1, 8, 0.41078580492196),
    (-1, 9, -0.33465378172097),
    (0, 0, 1387.0034777505),
    (0, 1, -406.63326195838),
    (0, 2, 41.72734715961),
    (0, 4, 2.1932549434532),
    (0, 5, -1.0320050009077),
    (0, 6, 0.35882943516703),
    (0, 9, 0.0052511453726066),
    (1, 0, 12.838916450705),
    (1, 1, -2.8642437219381),
    (1, 2, 0.56912683664855),
    (1, 3, -0.099962954584931),
    (1, 7, -0.0032632037778459),
    (1, 8, 0.00023320922576723),
    (2, 0, -0.1533480985745),
    (2, 1, 0.029072288239902),
    (2, 5, 0.00037534702741167),
    (3, 0, 0.0017296691702411),
    (3, 1, -0.00038556050844504),
    (3, 3, -3.5017712292608e-05),
    (4, 0, -1.4566393631492e-05),
    (4, 1, 5.6420857267269e-06),
    (5, 0, 4.1286150074605e-08),
    (5, 1, -2.0684671118824e-08),
    (5, 2, 1.6409393674725e-09)]

/-- Exponent pairs and coefficients of the region-2 subregion-c backward correlation `T(p,s)`, from `Region2.__T_ps2c`. -/
def ps2cIJn : List (ℤ × ℤ × ℝ) :=
  [
    (-2, 0, 909.68501005365),
    (-2, 1, 2404.566708842),
    (-1, 0, -591.6232638713),
    (0, 0, 541.45404128074),
    (0, 1, -270.98308411192),
    (0, 2, 979.76525097926),
    (0, 3, -469.66772959435),
    (1, 0, 14.399274604723),
    (1, 1, -19.104204230429),
    (1, 3, 5.3299167111971),
    (1, 4, -21.252975375934),
    (2, 0, -0.3114733441376),
    (2, 1, 0.60334840894623),
    (2, 2, -0.042764839702509),
    (3, 0, 0.0058185597255259),
    (3, 1, -0.014597008284753),
    (3, 5, 0.0056631175631027),
    (4, 0, -7.6155864584577e-05),
    (4, 1, 0.00022440342919332),
    (4, 4, -1.2561095013413e-05),
    (5, 0, 6.3323132660934e-07),
    (5, 1, -2.0541989675375e-06),
    (5, 2, 3.6405370390082e-08),
    (6, 0, -2.9759897789215e-09),
    (6, 1, 1.0136618529763e-08),
    (7, 0, 5.9925719692351e-12),
    (7, 1, -2.0677870105164e-11),
    (7, 3, -2.0874278181886e-11),
    (7, 4, 1.0162166825089e-10),
    (7, 5, -1.6429828281347e-10)]
/-- The five boundary coefficients of `Region2.__p2b2c_h` (`region2.py`
lines 127-128); only the first three enter the quadratic. -/
def p2b2cN : List ℝ :=
  [0.90584278514723e3, -0.67955786399241, 0.12809002730136e-3,
   0.26526571908428e4, 0.45257578905948e1]

/-- `Region2.__p2b2c_h(h)`: the 2b/2c boundary pressure, a quadratic in the
normalized enthalpy `teta = h / 1000`. -/
def p2b2c_h (h : ℝ) : ℝ :=
  let teta := h / 1000
  1e6 * (p2b2cN.getD 0 0 + p2b2cN.getD 1 0 * teta + p2b2cN.getD 2 0 * teta * teta)

/-- `Region2.__T_ph2a(p, h)`. -/
def T_ph2a (p h : ℝ) : ℝ :=
  let teta := h / 2000e3
  let pi := p / 1e6
  (ph2aIJn.map (fun e => e.2.2 * pi ^ e.1 * (teta - 2.1) ^ e.2.1)).sum

/-- `Region2.__T_ph2b(p, h)`. -/
def T_ph2b (p h : ℝ) : ℝ :=
  let teta := h / 2000e3
  let pi := p / 1e6
  (ph2bIJn.map (fun e => e.2.2 * (pi - 2) ^ e.1 * (teta - 2.6) ^ e.2.1)).sum

/-- `Region2.__T_ph2c(p, h)`. -/
def T_ph2c (p h : ℝ) : ℝ :=
  let teta := h / 2000e3
  let pi := p / 1e6
  (ph2cIJn.map (fun e => e.2.2 * (pi + 25) ^ e.1 * (teta - 1.8) ^ e.2.1)).sum

/-- `Region2.__T_ps2a(p, s)`; the fractional exponents on `pi` are real
powers (`Real.rpow`). -/
noncomputable def T_ps2a (p s : ℝ) : ℝ :=
  let sigma := s / 2000
  let pi := p / 1e6
  (ps2aIJn.map (fun e => e.2.2 * pi ^ e.1 * (sigma - 2) ^ e.2.1)).sum

/-- `Region2.__T_ps2b(p, s)`. -/
def T_ps2b (p s : ℝ) : ℝ :=
  let sigma := s / 785.3
  let pi := p / 1e6
  (ps2bIJn.map (fun e => e.2.2 * pi ^ e.1 * (10 - sigma) ^ e.2.1)).sum

/-- `Region2.__T_ps2c(p, s)`. -/
def T_ps2c (p s : ℝ) : ℝ :=
  let sigma := s / 2925.1
  let pi := p / 1e6
  (ps2cIJn.map (fun e => e.2.2 * pi ^ e.1 * (2 - sigma) ^ e.2.1)).sum

/-- `Region2.T_ph(p, h)`: three-way subregion dispatch — subregion a for
`p <= 4e6`, else subregion b when `p < __p2b2c_h(h)`, else subregion c. -/
def T_ph (p h : ℝ) : ℝ :=
  if p ≤ 4e6 then T_ph2a p h
  else if p < p2b2c_h h then T_ph2b p h
  else T_ph2c p h

/-- `Region2.T_ps(p, s)`: three-way subregion dispatch — subregion a for
`p <= 4e6`, else subregion b when `s > 5850`, else subregion c. -/
noncomputable def T_ps (p s : ℝ) : ℝ :=
  if p ≤ 4e6 then T_ps2a p s
  else if 5850 < s then T_ps2b p s
  else T_ps2c p s

/-- `Region2.T_ph` in the error monad: the dispatch and the three
subregion polynomials perform no input validation and contain no raise. -/
def T_phE (p h : ℝ) : Except WsError ℝ := do
  if p ≤ 4e6 then return T_ph2a p h
  else if p < p2b2c_h h then return T_ph2b p h
  else return T_ph2c p h

/-- `Region2.T_ps` in the error monad: no validation, no raise. -/
noncomputable def T_psE (p s : ℝ) : Except WsError ℝ := do
  if p ≤ 4e6 then return T_ps2a p s
  else if 5850 < s then return T_ps2b p s
  else return T_ps2c p s

end Region2

/-- Modelled from the spec: the liquid region's valid pressure range at
temperature `T` — from the saturation pressure at `T` up to the fixed
critical-pressure constant (spec, section 3). -/
def Region1.p_valid (T p : ℝ) : Prop :=
  SaturationCurve.p_T_raw T ≤ p ∧ p ≤ Region.pc

/-! Helper lemmas. -/

/-- Bounding the quartic-of-ratio expression of `SaturationCurve.p_T_raw`
from above using a rational lower bound `l` on the square root of the
discriminant. -/
theorem quartic_sqrt_lt (A B C l P : ℝ) (hl : 0 ≤ l) (hld : l ^ 2 ≤ B * B - 4 * A * C)
    (hb : 0 < -B + l) (hc : 0 ≤ C) (hP : (2 * C / (-B + l)) ^ 4 * 1e6 < P) :
    (2 * C / (-B + Real.sqrt (B * B - 4 * A * C))) ^ 4 * 1e6 < P := by
  have hs : l ≤ Real.sqrt (B * B - 4 * A * C) := by
    calc l = Real.sqrt (l ^ 2) := (Real.sqrt_sq hl).symm
    _ ≤ _ := Real.sqrt_le_sqrt hld
  have hb2 : 0 < -B + Real.sqrt (B * B - 4 * A * C) := by linarith
  have hr : 2 * C / (-B + Real.sqrt (B * B - 4 * A * C)) ≤ 2 * C / (-B + l) :=
    div_le_div_of_nonneg_left (by linarith) hb (by linarith)
  have hnn : 0 ≤ 2 * C / (-B + Real.sqrt (B * B - 4 * A * C)) :=
    div_nonneg (by linarith) (le_of_lt hb2)
  have h4 := pow_le_pow_left₀ hnn hr 4
  have h6 := mul_le_mul_of_nonneg_right h4 (by norm_num : (0:ℝ) ≤ 1e6)
  linarith

/-- The saturation pressure at 500 K is below 3 MPa (its value is about
2.639 MPa). -/
theorem sat_p_at_500_lt : SaturationCurve.p_T_raw 500 < 3e6 := by
  simp only [SaturationCurve.p_T_raw]
  exact quartic_sqrt_lt _ _ _ (1211954931 / 1000) _ (by norm_num)
    (by simp only [SaturationCurve.n0, SaturationCurve.n1, SaturationCurve.n2,
      SaturationCurve.n3, SaturationCurve.n4, SaturationCurve.n5, SaturationCurve.n6,
      SaturationCurve.n7, SaturationCurve.n8, SaturationCurve.n9]; norm_num)
    (by simp only [SaturationCurve.n0, SaturationCurve.n1, SaturationCurve.n2,
      SaturationCurve.n3, SaturationCurve.n4, SaturationCurve.n5, SaturationCurve.n6,
      SaturationCurve.n7, SaturationCurve.n8, SaturationCurve.n9]; norm_num)
    (by simp only [SaturationCurve.n0, SaturationCurve.n1, SaturationCurve.n2,
      SaturationCurve.n3, SaturationCurve.n4, SaturationCurve.n5, SaturationCurve.n6,
      SaturationCurve.n7, SaturationCurve.n8, SaturationCurve.n9]; norm_num)
    (by simp only [SaturationCurve.n0, SaturationCurve.n1, SaturationCurve.n2,
      SaturationCurve.n3, SaturationCurve.n4, SaturationCurve.n5, SaturationCurve.n6,
      SaturationCurve.n7, SaturationCurve.n8, SaturationCurve.n9]; norm_num)

/-- The saturation pressure at 623.15 K is below 20 MPa (its value is about
16.529 MPa). -/
theorem sat_p_at_62315_lt : SaturationCurve.p_T_raw 623.15 < 20e6 := by
  simp only [SaturationCurve.p_T_raw]
  exact quartic_sqrt_lt _ _ _ (158725957 / 200) _ (by norm_num)
    (by simp only [SaturationCurve.n0, SaturationCurve.n1, SaturationCurve.n2,
      SaturationCurve.n3, SaturationCurve.n4, SaturationCurve.n5, SaturationCurve.n6,
      SaturationCurve.n7, SaturationCurve.n8, SaturationCurve.n9]; norm_num)
    (by simp only [SaturationCurve.n0, SaturationCurve.n1, SaturationCurve.n2,
      SaturationCurve.n3, SaturationCurve.n4, SaturationCurve.n5, SaturationCurve.n6,
      SaturationCurve.n7, SaturationCurve.n8, SaturationCurve.n9]; norm_num)
    (by simp only [SaturationCurve.n0, SaturationCurve.n1, SaturationCurve.n2,
      SaturationCurve.n3, SaturationCurve.n4, SaturationCurve.n5, SaturationCurve.n6,
      SaturationCurve.n7, SaturationCurve.n8, SaturationCurve.n9]; norm_num)
    (by simp only [SaturationCurve.n0, SaturationCurve.n1, SaturationCurve.n2,
      SaturationCurve.n3, SaturationCurve.n4, SaturationCurve.n5, SaturationCurve.n6,
      SaturationCurve.n7, SaturationCurve.n8, SaturationCurve.n9]; norm_num)

/-- `Region1.p_right_lower` (the saturation pressure at `T_max`) is below
20 MPa. -/
theorem region1_p_right_lower_lt : Region1.p_right_lower < 20e6 := by
  simp only [Region1.p_right_lower, Region1.T_max]
  exact sat_p_at_62315_lt

/-- The boundary-23 temperature at 20 MPa exceeds 632 K (its value is about
649.8 K). -/
theorem boundary23_at_20MPa_gt : 632 < Boundary23.T_p 20e6 := by
  simp only [Boundary23.T_p]
  have h60 : (60:ℝ) ≤
      Real.sqrt ((20e6 / 1e6 - 0.13918839778870e2) / 0.10192970039326e-2) := by
    calc (60:ℝ) = Real.sqrt (60 ^ 2) := (Real.sqrt_sq (by norm_num)).symm
    _ ≤ _ := Real.sqrt_le_sqrt (by norm_num)
  linarith

/-- The dictionary lookup on the copy returned by `props_Tp` yields the
freshly computed property. -/
theorem selGet_props_Tp (r : Region.RegionImpl) (d : Region.PropsDict) (T p : ℝ)
    (X : Region.HS) :
    Region.selGet (Region.props_Tp r d T p).2 X =
      Region.PropsCore.sel (r.propsTpCore T p) X := by
  cases X <;> rfl

/-- Reading the slot just appended to the store returns the appended
record. -/
theorem getD_append_length (ls : List Region.PropsDict) (d e : Region.PropsDict) :
    (ls ++ [d]).getD ls.length e = d := by
  induction ls with
  | nil => rfl
  | cons x t ih => simp [List.getD]

set_option maxHeartbeats 4000000 in
/-- Exact value of the forward enthalpy of the liquid region at
`T = 500` K, `p = 3` MPa (all arithmetic is rational here, so the value is
an exact fraction). -/
theorem region1_h_at_500_3MPa :
    (Region1.propsCore 500 3e6).h = (1805836081443390880969843048138031768160460024316741734554051161253588624398633456705150707843723801465447675008441173642701909330341839684097107702751018873702797323900950795612184795862498472928799747796963429 : ℝ) / 1851110089415017290758854679343025156728565474245335373212830366839892554883025197583552421612218851970772625271401853384820536593873661005490178711356211200000000000000000000000000000000000000000000000000 := by
  simp only [Region1.propsCore, Region1.lt, Region1.gIJn, Region.R]
  norm_num

set_option maxHeartbeats 4000000 in
/-- Exact value of the forward entropy of the liquid region at
`T = 500` K, `p = 3` MPa. -/
theorem region1_s_at_500_3MPa :
    (Region1.propsCore 500 3e6).s = (4776639868047327642519161040713771890342772314668576184469132014925371312631626706445172537722388113431122934404901445225614943618926927507793335575943468288461331184647311903225970322371203686000402896508734883 : ℝ) / 1851110089415017290758854679343025156728565474245335373212830366839892554883025197583552421612218851970772625271401853384820536593873661005490178711356211200000000000000000000000000000000000000000000000000000 := by
  simp only [Region1.propsCore, Region1.lt, Region1.l, Region1.gIJn, Region.R]
  norm_num

set_option maxHeartbeats 8000000 in
/-- The backward `T(p,h)` of the liquid region, applied to the exact forward
enthalpy at (500 K, 3 MPa), lands strictly inside the window
`[500 - 1/40, 500 - 1/2000)` — about 13.4 mK below 500 K. -/
theorem region1_Tph_window :
    500 - 1/40 ≤ Region1.T_ph 3e6 ((1805836081443390880969843048138031768160460024316741734554051161253588624398633456705150707843723801465447675008441173642701909330341839684097107702751018873702797323900950795612184795862498472928799747796963429 : ℝ) / 1851110089415017290758854679343025156728565474245335373212830366839892554883025197583552421612218851970772625271401853384820536593873661005490178711356211200000000000000000000000000000000000000000000000000) ∧
    Region1.T_ph 3e6 ((1805836081443390880969843048138031768160460024316741734554051161253588624398633456705150707843723801465447675008441173642701909330341839684097107702751018873702797323900950795612184795862498472928799747796963429 : ℝ) / 1851110089415017290758854679343025156728565474245335373212830366839892554883025197583552421612218851970772625271401853384820536593873661005490178711356211200000000000000000000000000000000000000000000000000) < 500 - 1/2000 := by
  constructor <;>
  · simp only [Region1.T_ph, Region1.phIJn]
    norm_num

set_option maxHeartbeats 8000000 in
/-- The backward `T(p,s)` of the liquid region, applied to the exact forward
entropy at (500 K, 3 MPa), lands strictly inside the window
`[500 - 1/40, 500 - 1/2000)` — about 8.7 mK below 500 K. -/
theorem region1_Tps_window :
    500 - 1/40 ≤ Region1.T_ps 3e6 ((4776639868047327642519161040713771890342772314668576184469132014925371312631626706445172537722388113431122934404901445225614943618926927507793335575943468288461331184647311903225970322371203686000402896508734883 : ℝ) / 1851110089415017290758854679343025156728565474245335373212830366839892554883025197583552421612218851970772625271401853384820536593873661005490178711356211200000000000000000000000000000000000000000000000000000) ∧
    Region1.T_ps 3e6 ((4776639868047327642519161040713771890342772314668576184469132014925371312631626706445172537722388113431122934404901445225614943618926927507793335575943468288461331184647311903225970322371203686000402896508734883 : ℝ) / 1851110089415017290758854679343025156728565474245335373212830366839892554883025197583552421612218851970772625271401853384820536593873661005490178711356211200000000000000000000000000000000000000000000000000000) < 500 - 1/2000 := by
  constructor <;>
  · simp only [Region1.T_ps, Region1.psIJn]
    norm_num

/-! Claim theorems. -/

/-- C1 — the claim says `props_ph(p, h)` / `props_ps(p, s)` return a record
equal to the one `props_Tp(T_ph(p, h), p)` would produce, with the pressure
field set to the query pressure.  In the code, `props_ph` and `props_ps`
set `T` and `h` (resp. `s`) but never write `props['p']`, so the returned
record carries the stale pressure of the previous forward call (here
`1e6`, not the query pressure `3e6`), and on a fresh instance the pressure
field is absent altogether.  This theorem evaluates the code at that
failing input. -/
theorem props_ph_pressure_field_stale :
    ((Region.props_ph Region1.impl
        (Region.props_Tp Region1.impl Region.emptyProps 300 1e6).1 3e6 500000).2).p
      = some (1e6 : ℝ) ∧
    ((Region.props_ps Region1.impl
        (Region.props_Tp Region1.impl Region.emptyProps 300 1e6).1 3e6 3000).2).p
      = some (1e6 : ℝ) ∧
    ((Region.props_Tp Region1.impl Region.emptyProps
        (Region1.impl.T_ph 3e6 500000) 3e6).2).p = some (3e6 : ℝ) ∧
    (1e6 : ℝ) ≠ (3e6 : ℝ) ∧
    ((Region.props_ph Region1.impl Region.emptyProps 3e6 500000).2).p = none := by
  refine ⟨rfl, rfl, rfl, by norm_num, rfl⟩

/-- C2, counterexample — at `p = 20 MPa` (a pressure above the saturation
pressure at 623.15 K), the upper temperature edge computed by
`Region1._get_T_edges` is the constant `T_max = 623.15` K, which is not
the Boundary23 temperature at that pressure (about 649.8 K), so the upper
bound is not obtained via Boundary23 as the claim states. -/
theorem region1_upper_edge_not_boundary23 :
    Region1.p_right_lower < 20e6 ∧
    (Region1.get_T_edges 20e6).2 ≠ Boundary23.T_p 20e6 := by
  refine ⟨region1_p_right_lower_lt, ?_⟩
  have h2 : (Region1.get_T_edges 20e6).2 = 623.15 := by
    simp [Region1.get_T_edges, if_pos region1_p_right_lower_lt, Region1.T_max]
  rw [h2]
  exact ne_of_lt (by linarith [boundary23_at_20MPa_gt])

/-- C2, amended — in the liquid region's containment check, the lower
temperature bound is the global minimum `T_min` and the upper bound at
pressure `p` is the constant `T_max = 623.15` K when `p` exceeds the
saturation pressure at 623.15 K, and the saturation temperature at `p`
otherwise (Boundary23 is not involved). -/
theorem region1_T_edges_spec (p : ℝ) :
    (Region1.p_right_lower < p →
      Region1.get_T_edges p = (Region1.T_min, Region1.T_max)) ∧
    (p ≤ Region1.p_right_lower →
      Region1.get_T_edges p = (Region1.T_min, SaturationCurve.T_p_raw p)) := by
  constructor
  · intro hgt
    simp [Region1.get_T_edges, if_pos hgt]
  · intro hle
    simp [Region1.get_T_edges, if_neg (not_lt.2 hle)]

/-- C2, witness for the amended theorem at `p = 20 MPa`. -/
theorem region1_T_edges_spec_witness :
    Region1.p_right_lower < 20e6 ∧
    Region1.get_T_edges 20e6 = (Region1.T_min, Region1.T_max) :=
  ⟨region1_p_right_lower_lt, (region1_T_edges_spec 20e6).1 region1_p_right_lower_lt⟩

/-- C3, counterexample — `temperature_at_pressure(1e5)` does not fail:
`1e5` Pa lies inside the valid domain `[611.212677 Pa, 22.064e6 Pa]`
(it is not below the minimum pressure, contrary to the claim), so the
guard passes and a temperature is returned. -/
theorem T_p_at_1e5_succeeds :
    SaturationCurve.T_p 1e5 = .ok (SaturationCurve.T_p_raw 1e5) := by
  rw [SaturationCurve.T_p,
    if_pos (by norm_num : (611.212677:ℝ) ≤ 1e5 ∧ (1e5:ℝ) ≤ 22.064e6)]

/-- C3, amended — `pressure_at_temperature(700)` fails with the input-range
error (700 K is above the critical temperature 647.096 K), while
`temperature_at_pressure(1e5)` succeeds, since 1e5 Pa lies inside the valid
pressure domain. -/
theorem saturation_range_examples :
    SaturationCurve.p_T 700 = .error .inputRange ∧
    SaturationCurve.T_p 1e5 = .ok (SaturationCurve.T_p_raw 1e5) := by
  constructor
  · rw [SaturationCurve.p_T, if_neg]
    intro hc
    have := hc.2
    norm_num at this
  · rw [SaturationCurve.T_p,
      if_pos (by norm_num : (611.212677:ℝ) ≤ 1e5 ∧ (1e5:ℝ) ≤ 22.064e6)]

/-- C4 — `Region2.T_ph(p, h)` dispatches among exactly the three
subregion correlations: subregion a when `p ≤ 4 MPa`; otherwise subregion
b when `p` is strictly below the boundary pressure `__p2b2c_h(h)`
(a quadratic in the normalized enthalpy); otherwise subregion c. -/
theorem region2_T_ph_dispatch (p h : ℝ) :
    (p ≤ 4e6 → Region2.T_ph p h = Region2.T_ph2a p h) ∧
    (4e6 < p → p < Region2.p2b2c_h h → Region2.T_ph p h = Region2.T_ph2b p h) ∧
    (4e6 < p → Region2.p2b2c_h h ≤ p → Region2.T_ph p h = Region2.T_ph2c p h) := by
  refine ⟨fun h1 => ?_, fun h1 h2 => ?_, fun h1 h2 => ?_⟩
  · rw [Region2.T_ph, if_pos h1]
  · rw [Region2.T_ph, if_neg (not_le.2 h1), if_pos h2]
  · rw [Region2.T_ph, if_neg (not_le.2 h1), if_neg (not_lt.2 h2)]

/-- C4, witness — at `p = 2 MPa ≤ 4 MPa` the subregion-a correlation is
selected. -/
theorem region2_T_ph_dispatch_witness :
    (2e6 : ℝ) ≤ 4e6 ∧ Region2.T_ph 2e6 2.8e6 = Region2.T_ph2a 2e6 2.8e6 :=
  ⟨by norm_num, (region2_T_ph_dispatch 2e6 2.8e6).1 (by norm_num)⟩

/-- C5 — `Region2.T_ps(p, s)` dispatches among exactly the three
subregion correlations: subregion a when `p ≤ 4 MPa`; otherwise subregion
b when `s > 5850` J/kg/K; otherwise subregion c. -/
theorem region2_T_ps_dispatch (p s : ℝ) :
    (p ≤ 4e6 → Region2.T_ps p s = Region2.T_ps2a p s) ∧
    (4e6 < p → 5850 < s → Region2.T_ps p s = Region2.T_ps2b p s) ∧
    (4e6 < p → s ≤ 5850 → Region2.T_ps p s = Region2.T_ps2c p s) := by
  refine ⟨fun h1 => ?_, fun h1 h2 => ?_, fun h1 h2 => ?_⟩
  · rw [Region2.T_ps, if_pos h1]
  · rw [Region2.T_ps, if_neg (not_le.2 h1), if_pos h2]
  · rw [Region2.T_ps, if_neg (not_le.2 h1), if_neg (not_lt.2 h2)]

/-- C5, witness — at `p = 3 MPa ≤ 4 MPa` the subregion-a correlation is
selected. -/
theorem region2_T_ps_dispatch_witness :
    (3e6 : ℝ) ≤ 4e6 ∧ Region2.T_ps 3e6 6000 = Region2.T_ps2a 3e6 6000 :=
  ⟨by norm_num, (region2_T_ps_dispatch 3e6 6000).1 (by norm_num)⟩

/-- C6 — for every region, dictionary state, pressure `p`, value `v` and
chosen key, `_pX_in(p, v, X)` holds iff `p` lies in the region's pressure
range and the chosen property, forward-evaluated at the region's lower and
upper temperature bounds at `p`, brackets `v` from below and above. -/
theorem pX_in_iff_ordered_range_check (r : Region.RegionImpl) (d : Region.PropsDict)
    (p v : ℝ) (X : Region.HS) :
    (Region.pX_in r d p v X).2 ↔
      (r.p_in p ∧
        Region.PropsCore.sel (r.propsTpCore (r.T_edges p).1 p) X ≤ v ∧
        v ≤ Region.PropsCore.sel (r.propsTpCore (r.T_edges p).2 p) X) := by
  by_cases hp : r.p_in p
  · simp only [Region.pX_in, if_neg (not_not_intro hp), selGet_props_Tp]
    simp [hp]
  · simp [Region.pX_in, if_pos hp, hp]

/-- C7 — the saturation curve's `p_T` raises the input-range error exactly
for temperatures outside `[273.15, 647.096]` K and returns a value inside
that closed interval; `T_p` raises exactly for pressures outside
`[611.212677, 22.064e6]` Pa and returns a value inside. -/
theorem saturation_guard_characterization (T p : ℝ) :
    ((∃ e, SaturationCurve.p_T T = .error e) ↔ (T < 273.15 ∨ 647.096 < T)) ∧
    ((∃ v, SaturationCurve.p_T T = .ok v) ↔ (273.15 ≤ T ∧ T ≤ 647.096)) ∧
    ((∃ e, SaturationCurve.T_p p = .error e) ↔ (p < 611.212677 ∨ 22.064e6 < p)) ∧
    ((∃ v, SaturationCurve.T_p p = .ok v) ↔ (611.212677 ≤ p ∧ p ≤ 22.064e6)) := by
  refine ⟨?_, ?_, ?_, ?_⟩
  · rw [SaturationCurve.p_T]
    split_ifs with hc
    · simp [not_lt.2 hc.1, not_lt.2 hc.2]
    · constructor
      · intro _
        by_contra hno
        push_neg at hno
        exact hc hno
      · intro _
        exact ⟨.inputRange, rfl⟩
  · rw [SaturationCurve.p_T]
    split_ifs with hc
    · simp [hc]
    · simp [hc]
  · rw [SaturationCurve.T_p]
    split_ifs with hc
    · simp [not_lt.2 hc.1, not_lt.2 hc.2]
    · constructor
      · intro _
        by_contra hno
        push_neg at hno
        exact hc hno
      · intro _
        exact ⟨.inputRange, rfl⟩
  · rw [SaturationCurve.T_p]
    split_ifs with hc
    · simp [hc]
    · simp [hc]

/-- A value in the window `[500 - 1/40, 500 - 1/2000)` misses 500 by more
than `1e-6 * 500` but by at most 0.025. -/
theorem window_abs (x : ℝ) (h1 : 500 - 1/40 ≤ x) (h2 : x < 500 - 1/2000) :
    |x - 500| ≤ 0.025 ∧ 1e-6 * 500 < |x - 500| ∧ ¬ (|x - 500| ≤ 1e-6 * 500) := by
  have hx : x - 500 < 0 := by linarith
  rw [abs_of_neg hx]
  refine ⟨by norm_num; linarith, by norm_num; linarith, ?_⟩
  intro hle
  norm_num at hle
  linarith

/-- C8, counterexample — at `T = 500` K and `p = 3` MPa, a point inside
`(273.15, 623.15)` with `p` in the liquid region's valid range
(`p_sat(500) ≈ 2.639 MPa ≤ 3 MPa ≤ p_c`), the backward equation applied to
the forward enthalpy misses `T` by about 13.4 mK, which is far more than
the claimed `1e-6` relative tolerance (0.5 mK at 500 K). -/
theorem region1_roundtrip_tolerance_cex :
    Region1.p_valid 500 3e6 ∧ (273.15:ℝ) < 500 ∧ (500:ℝ) < 623.15 ∧
    ¬ (|Region1.T_ph 3e6 (Region1.propsCore 500 3e6).h - 500| ≤ 1e-6 * 500) := by
  obtain ⟨hh1, hh2⟩ := region1_Tph_window
  have Hh := window_abs _ hh1 hh2
  rw [region1_h_at_500_3MPa]
  exact ⟨⟨le_of_lt sat_p_at_500_lt, by rw [Region.pc]; norm_num⟩,
    by norm_num, by norm_num, Hh.2.2⟩

/-- C8, amended — the liquid region's backward equations recover the
forward temperature only to within the correlations' published consistency
(25 mK), not to within `1e-6` relative tolerance: at the valid in-region
point `T = 500` K, `p = 3` MPa both round-trip errors lie in
`(1e-6 * 500 K, 0.025 K]`. -/
theorem region1_roundtrip_25mK :
    Region1.p_valid 500 3e6 ∧ (273.15:ℝ) < 500 ∧ (500:ℝ) < 623.15 ∧
    |Region1.T_ph 3e6 (Region1.propsCore 500 3e6).h - 500| ≤ 0.025 ∧
    |Region1.T_ps 3e6 (Region1.propsCore 500 3e6).s - 500| ≤ 0.025 ∧
    1e-6 * 500 < |Region1.T_ph 3e6 (Region1.propsCore 500 3e6).h - 500| ∧
    1e-6 * 500 < |Region1.T_ps 3e6 (Region1.propsCore 500 3e6).s - 500| := by
  obtain ⟨hh1, hh2⟩ := region1_Tph_window
  obtain ⟨hs1, hs2⟩ := region1_Tps_window
  have Hh := window_abs _ hh1 hh2
  have Hs := window_abs _ hs1 hs2
  rw [region1_h_at_500_3MPa, region1_s_at_500_3MPa]
  exact ⟨⟨le_of_lt sat_p_at_500_lt, by rw [Region.pc]; norm_num⟩,
    by norm_num, by norm_num, Hh.1, Hs.1, Hh.2.1, Hs.2.1⟩

/-- C9 — every property-returning call hands out a fresh copy of the
internal dictionary, so a caller mutating the record it received from one
call does not change the record returned by any later call on the same
region instance. -/
theorem returned_record_mutation_immaterial (r : Region.RegionImpl)
    (st : Region.ObjState) (c1 c2 : Region.RCall) (g : Region.PropsDict → Region.PropsDict) :
    Region.readRet
        (Region.runCall r
          (Region.mutateRet (Region.runCall r st c1).1 (Region.runCall r st c1).2 g) c2).1
        (Region.runCall r
          (Region.mutateRet (Region.runCall r st c1).1 (Region.runCall r st c1).2 g) c2).2 =
      Region.readRet (Region.runCall r (Region.runCall r st c1).1 c2).1
        (Region.runCall r (Region.runCall r st c1).1 c2).2 := by
  simp only [Region.runCall, Region.readRet, Region.mutateRet]
  rw [getD_append_length, getD_append_length]

/-- C10 — the backward correlations of both regions perform no input
validation of their own: for every positive pressure and arbitrary enthalpy
and entropy (also outside the regions' validity domains) their monadic
translations return a numeric temperature and never an error. -/
theorem backward_correlations_total (p h s : ℝ) (_hp : 0 < p) :
    Region1.T_phE p h = .ok (Region1.T_ph p h) ∧
    Region1.T_psE p s = .ok (Region1.T_ps p s) ∧
    Region2.T_phE p h = .ok (Region2.T_ph p h) ∧
    Region2.T_psE p s = .ok (Region2.T_ps p s) := by
  refine ⟨rfl, rfl, ?_, ?_⟩
  · rw [Region2.T_phE, Region2.T_ph]
    split_ifs <;> rfl
  · rw [Region2.T_psE, Region2.T_ps]
    split_ifs <;> rfl

/-- C10, witness — at `p = 1 MPa` with an enthalpy of `-5e6` J/kg and an
entropy of `-1e4` J/kg/K (far outside any validity domain), all four
backward correlations return a temperature without error. -/
theorem backward_correlations_total_witness :
    (0:ℝ) < 1e6 ∧
    (Region1.T_phE 1e6 (-5e6) = .ok (Region1.T_ph 1e6 (-5e6)) ∧
     Region1.T_psE 1e6 (-1e4) = .ok (Region1.T_ps 1e6 (-1e4)) ∧
     Region2.T_phE 1e6 (-5e6) = .ok (Region2.T_ph 1e6 (-5e6)) ∧
     Region2.T_psE 1e6 (-1e4) = .ok (Region2.T_ps 1e6 (-1e4))) :=
  ⟨by norm_num, backward_correlations_total 1e6 (-5e6) (-1e4) (by norm_num)⟩
